import Mathlib

/-!
Verification of the video-generation pipeline of the `splits` repository
(`generation.js` module: `processAudio`, `generateVideo`, `createThumbnail`,
`generateEnhancedThumbnail`).

The module is shallowly embedded: the filesystem is a map from paths to byte
buffers, `Date.now()` values and the outcomes of the external collaborators
(the `./visualizer` module and the `ffmpeg` subprocess, neither of which is
part of the excerpted source) are explicit parameters, and each exported
function is a Lean function from its inputs, its environment and the initial
filesystem to its returned JS object and the final filesystem.
-/

/-- A filesystem path as built by `path.join(dir, name)` in the source, where
`name` never contains a separator (it is always `audio-…`, `video-…` or
`thumbnail-…` with a numeric timestamp). Keeping the directory and base name
as the two components makes `path.basename` / `path.dirname` exact inverses,
which is the behavior of the Node functions on such paths. -/
structure FsPath where
  dir : String
  base : String
deriving DecidableEq, Repr

/-- Model of `path.join(dir, name)` for a single separator-free name. -/
def pathJoin (dir : String) (name : String) : FsPath := ⟨dir, name⟩

/-- Model of `path.basename`. -/
def pathBasename (p : FsPath) : String := p.base

/-- Model of `path.dirname`. -/
def pathDirname (p : FsPath) : String := p.dir

/-- A byte buffer. -/
abbrev Buffer := List Nat

/-- The filesystem: a partial map from paths to file contents. -/
def FS : Type := FsPath → Option Buffer

/-- The empty filesystem. -/
def fsEmpty : FS := fun _ => none

/-- Model of `fs.readFile` as a lookup (the caller decides what a missing
file means). -/
def fsRead (fs : FS) (p : FsPath) : Option Buffer := fs p

/-- Model of `fs.writeFile`: create or overwrite. -/
def fsWrite (fs : FS) (p : FsPath) (b : Buffer) : FS :=
  fun q => if q = p then some b else fs q

/-- Removal of a path from the filesystem. -/
def fsErase (fs : FS) (p : FsPath) : FS :=
  fun q => if q = p then none else fs q

/-- The error kinds of the spec's taxonomy, plus the raw filesystem error. -/
inductive ErrKind
  | DecodeError
  | ConfigurationError
  | EncodingError
  | ExtractionError
  | ResourceError
deriving DecidableEq, Repr

/-- A thrown JS error: a kind (its class) and its `.message`. -/
structure JsError where
  kind : ErrKind
  message : String
deriving DecidableEq, Repr

/-- Model of `fs.unlink`: fails (rejects with ENOENT) when the file does not
exist. -/
def fsUnlink (fs : FS) (p : FsPath) : Except JsError FS :=
  match fs p with
  | some _ => .ok (fsErase fs p)
  | none => .error ⟨.ResourceError, "ENOENT"⟩

@[simp] theorem fsRead_fsWrite_self (fs : FS) (p : FsPath) (b : Buffer) :
    fsRead (fsWrite fs p b) p = some b := by
  simp [fsRead, fsWrite]

theorem fsRead_fsWrite_ne (fs : FS) {p q : FsPath} (b : Buffer) (h : q ≠ p) :
    fsRead (fsWrite fs p b) q = fsRead fs q := by
  simp [fsRead, fsWrite, h]

@[simp] theorem fsRead_fsErase_self (fs : FS) (p : FsPath) :
    fsRead (fsErase fs p) p = none := by
  simp [fsRead, fsErase]

theorem fsRead_fsErase_ne (fs : FS) {p q : FsPath} (h : q ≠ p) :
    fsRead (fsErase fs p) q = fsRead fs q := by
  simp [fsRead, fsErase, h]

/-- Model of `os.tmpdir()`. -/
def tmpdir : String := "/tmp"

/-- The temp audio path `path.join(tempDir, audio-(Date.now()).mp3)` built by
`processAudio` and `generateVideo` for the millisecond timestamp `t`. -/
def audioTempPath (t : Nat) : FsPath :=
  pathJoin tmpdir ("audio-" ++ toString t ++ ".mp3")

/-- The temp video path `path.join(tempDir, video-(Date.now()).mp4)` built by
`generateVideo` (as its output path) and `createThumbnail` (as its input
path) for the millisecond timestamp `t`. -/
def videoTempPath (t : Nat) : FsPath :=
  pathJoin tmpdir ("video-" ++ toString t ++ ".mp4")

/-- The temp thumbnail path `path.join(tempDir, thumbnail-(Date.now()).jpg)`
built by `createThumbnail` for the millisecond timestamp `t`. -/
def thumbTempPath (t : Nat) : FsPath :=
  pathJoin tmpdir ("thumbnail-" ++ toString t ++ ".jpg")

/-- The `AudioAnalysis` value object of the data model: `bpm`, per-beat
timestamps, duration (seconds), waveform envelope. -/
structure AudioAnalysis where
  bpm : ℚ
  beats : List ℚ
  duration : ℚ
  waveform : List ℚ
deriving DecidableEq, Repr

/-! ### generateVideo -/

/-- The behavior of one `createVisualizer` invocation beyond its effect-name
validation: either it succeeds, writing a visualizer file with some base
`name` and `content` into the temp directory and returning its path, or it
throws some error. -/
inductive VisOutcome
  | ok (name : String) (content : Buffer)
  | err (e : JsError)
deriving DecidableEq, Repr

/-- The behavior of the `ffmpeg` mux subprocess wrapped in a promise by
`generateVideo`: the `end` event fires after the output file was written,
the `error` event rejects the promise, or neither event ever fires and the
promise never settles. -/
inductive EncOutcome
  | ends (output : Buffer)
  | fails (e : JsError)
  | hangs
deriving DecidableEq, Repr

/-- Environment of one `generateVideo` invocation: the two `Date.now()`
readings (for the temp audio path and the temp output path) and the outcomes
of the two external collaborators. -/
structure GVEnv where
  t1 : Nat
  t2 : Nat
  vis : VisOutcome
  enc : EncOutcome
deriving DecidableEq, Repr

/-- The enumerated set of supported effect names (zoom, pulse, glitch,
text_overlay) from the data model's `EffectConfiguration`. -/
def supportedEffects : List String :=
  ["zoom", "pulse", "glitch", "text_overlay"]

/-- Modelled from the spec: `createVisualizer` is imported from
`./visualizer`, a module of this repository that is not in the excerpt; per
the spec's renderer contract, an effect configuration containing an unknown
effect name fails with a `ConfigurationError` (rather than being ignored),
and otherwise the renderer produces a visualizer file in the given directory
and returns its path. The non-validation behavior (output name, content,
any other failure) is the `osc` oracle parameter. The `effects` mapping is
modelled by its list of keys. -/
def createVisualizer (analysis : AudioAnalysis) (imageFiles : List Buffer)
    (effects : List String) (title : String) (dir : String)
    (osc : VisOutcome) (fs : FS) : Except JsError FsPath × FS :=
  match effects.find? (fun e => !(supportedEffects.contains e)) with
  | some bad =>
      (.error ⟨.ConfigurationError, "Unknown effect: " ++ bad⟩, fs)
  | none =>
      match osc with
      | .ok name content =>
          let p := pathJoin dir name
          (.ok p, fsWrite fs p content)
      | .err e => (.error e, fs)

/-- The `outputOptions` list passed to ffmpeg by `generateVideo`. -/
def gvOutputOptions : List String :=
  ["-c:v libx264", "-pix_fmt yuv420p", "-c:a aac", "-shortest"]

/-- Modelled from the spec: the duration contract of the external ffmpeg mux
(an external collaborator, not repository code). With the `-shortest` flag
the muxed output is trimmed to the shorter input; without it, ffmpeg pads to
the longer input. -/
def ffmpegMuxDuration (options : List String) (videoDur audioDur : ℚ) : ℚ :=
  if options.contains "-shortest" then min videoDur audioDur
  else max videoDur audioDur

/-- The `try` block of `generateVideo` (part_007 lines 93-139): write the
audio buffer to a temp file, run `createVisualizer`, run ffmpeg into a temp
output path, read the output back, unlink the three temp files, and return
the video buffer. Any thrown error aborts the block at its throw point with
the filesystem as it stood there. `none` means the invocation never returns
(the ffmpeg promise never settles). -/
def generateVideoTry (audioBuffer : Buffer) (audioAnalysis : AudioAnalysis)
    (imageFiles : List Buffer) (effects : List String) (title : String)
    (env : GVEnv) (fs : FS) : Option (Except JsError Buffer × FS) :=
  let audioPath := audioTempPath env.t1
  let fs1 := fsWrite fs audioPath audioBuffer
  let outputPath := videoTempPath env.t2
  match createVisualizer audioAnalysis imageFiles effects title tmpdir env.vis fs1 with
  | (.error e, fs2) => some (.error e, fs2)
  | (.ok visualizerPath, fs2) =>
    match env.enc with
    | .hangs => none
    | .fails e => some (.error e, fs2)
    | .ends out =>
      let fs3 := fsWrite fs2 outputPath out
      match fsRead fs3 outputPath with
      | none => some (.error ⟨.ResourceError, "ENOENT"⟩, fs3)
      | some videoBuffer =>
        match fsUnlink fs3 audioPath with
        | .error e => some (.error e, fs3)
        | .ok fs4 =>
          match fsUnlink fs4 visualizerPath with
          | .error e => some (.error e, fs4)
          | .ok fs5 =>
            match fsUnlink fs5 outputPath with
            | .error e => some (.error e, fs5)
            | .ok fs6 => some (.ok videoBuffer, fs6)

/-- The JS object returned by `generateVideo`. -/
structure GVResult where
  success : Bool
  videoBuffer : Option Buffer
  error : Option String
deriving DecidableEq, Repr

/-- `generateVideo` (part_007 lines 92-147): the try block wrapped in the
`catch` that turns any thrown error into `(success := false, error :=
error.message)`. The catch performs no cleanup. -/
def generateVideoM (audioBuffer : Buffer) (audioAnalysis : AudioAnalysis)
    (imageFiles : List Buffer) (effects : List String) (title : String)
    (env : GVEnv) (fs : FS) : Option (GVResult × FS) :=
  match generateVideoTry audioBuffer audioAnalysis imageFiles effects title env fs with
  | none => none
  | some (.ok buf, fs') =>
      some ({ success := true, videoBuffer := some buf, error := none }, fs')
  | some (.error e, fs') =>
      some ({ success := false, videoBuffer := none, error := some e.message }, fs')

/-! ### createThumbnail -/

/-- The configuration object passed to `ffmpeg(videoPath).screenshots({...})`
by `createThumbnail`. -/
structure ScreenshotConfig where
  timestamps : List String
  filename : String
  folder : String
  size : String
deriving DecidableEq, Repr

/-- The screenshot configuration `createThumbnail` builds for its temp
thumbnail path (part_007 lines 163-168). -/
def ctScreenshotConfig (thumbnailPath : FsPath) : ScreenshotConfig :=
  { timestamps := ["50%"]
    filename := pathBasename thumbnailPath
    folder := pathDirname thumbnailPath
    size := "1280x720" }

/-- The numeric value of a decimal digit character. -/
def digitVal (c : Char) : Option Nat :=
  if c.isDigit then some (c.toNat - 48) else none

/-- Accumulating decimal reading of a character list. -/
def digitsToNatAux : Nat → List Char → Option Nat
  | acc, [] => some acc
  | acc, c :: cs =>
    match digitVal c with
    | none => none
    | some d => digitsToNatAux (acc * 10 + d) cs

/-- A non-empty all-digit character list read as a decimal number. -/
def digitsToNat : List Char → Option Nat
  | [] => none
  | cs => digitsToNatAux 0 cs

/-- Modelled from the spec: a fluent-ffmpeg screenshot timestamp entry of the
form `"N%"` denotes the frame at fraction N/100 of the video's duration;
this parser extracts the percent number N. -/
def parsePercent (s : String) : Option Nat :=
  if s.data.getLast? = some '%' then digitsToNat s.data.dropLast else none

/-- Modelled from the spec: the source timestamp of the single frame that the
external screenshot invocation samples from a video of the given duration,
when the configuration requests exactly one frame at a percent position. -/
def screenshotTimestampOf (cfg : ScreenshotConfig) (duration : ℚ) : Option ℚ :=
  match cfg.timestamps with
  | [t] => (parsePercent t).map (fun n => (n : ℚ) * duration / 100)
  | _ => none

/-- Splitting a character list on a separator character. -/
def splitOnChar (sep : Char) : List Char → List (List Char)
  | [] => [[]]
  | c :: cs =>
    let r := splitOnChar sep cs
    if c = sep then [] :: r
    else
      match r with
      | [] => [[c]]
      | g :: gs => (c :: g) :: gs

/-- A `WxH` size string parsed to a (width, height) pair. -/
def parseSize (s : String) : Option (Nat × Nat) :=
  match splitOnChar 'x' s.data with
  | [w, h] =>
    match digitsToNat w, digitsToNat h with
    | some wn, some hn => some (wn, hn)
    | _, _ => none
  | _ => none

/-- The behavior of the external screenshot invocation wrapped in a promise
by `createThumbnail`: the `end` event fires after the frame was written to
`folder/filename`, or the `error` event rejects the promise. -/
inductive ShotOutcome
  | ends (content : Buffer)
  | fails (e : JsError)
deriving DecidableEq, Repr

/-- Environment of one `createThumbnail` invocation: the two `Date.now()`
readings (temp video path, temp thumbnail path) and the screenshot outcome. -/
structure CTEnv where
  t1 : Nat
  t2 : Nat
  shot : ShotOutcome
deriving DecidableEq, Repr

/-- The `try` block of `createThumbnail` (part_007 lines 151-183): write the
video buffer to a temp file, screenshot the 50% frame into the temp
thumbnail path, read it back, unlink both temp files. On success the frame
lands at `path.join(folder, filename)`, i.e. exactly at `thumbnailPath`. -/
def createThumbnailTry (videoBuffer : Buffer) (env : CTEnv) (fs : FS) :
    Except JsError Buffer × FS :=
  let videoPath := videoTempPath env.t1
  let fs1 := fsWrite fs videoPath videoBuffer
  let thumbnailPath := thumbTempPath env.t2
  let cfg := ctScreenshotConfig thumbnailPath
  match env.shot with
  | .fails e => (.error e, fs1)
  | .ends content =>
    let fs2 := fsWrite fs1 (pathJoin cfg.folder cfg.filename) content
    match fsRead fs2 thumbnailPath with
    | none => (.error ⟨.ResourceError, "ENOENT"⟩, fs2)
    | some thumbnailBuffer =>
      match fsUnlink fs2 videoPath with
      | .error e => (.error e, fs2)
      | .ok fs3 =>
        match fsUnlink fs3 thumbnailPath with
        | .error e => (.error e, fs3)
        | .ok fs4 => (.ok thumbnailBuffer, fs4)

/-- The JS object returned by `createThumbnail` and by
`generateEnhancedThumbnail`. -/
structure CTResult where
  success : Bool
  thumbnailBuffer : Option Buffer
  error : Option String
deriving DecidableEq, Repr

/-- `createThumbnail` (part_007 lines 150-191): the try block wrapped in the
`catch` that turns any thrown error into `(success := false, error :=
error.message)`. The catch performs no cleanup. -/
def createThumbnailM (videoBuffer : Buffer) (env : CTEnv) (fs : FS) :
    CTResult × FS :=
  match createThumbnailTry videoBuffer env fs with
  | (.ok buf, fs') =>
      ({ success := true, thumbnailBuffer := some buf, error := none }, fs')
  | (.error e, fs') =>
      ({ success := false, thumbnailBuffer := none, error := some e.message }, fs')

/-! ### generateEnhancedThumbnail -/

/-- `generateEnhancedThumbnail` (part_007 lines 194-209): the body simply
returns the original thumbnail with `success: true`; the `title` and
`effects` arguments are not consulted. -/
def generateEnhancedThumbnail (thumbnailBuffer : Buffer) (title : String)
    (effects : List String) : CTResult :=
  { success := true, thumbnailBuffer := some thumbnailBuffer, error := none }

/-! ### processAudio

The module begins with `import { processAudio } from './audioProcessor'` and
then declares `export async function processAudio(audioBuffer)`, whose body
calls `await processAudio(audioPath)`. The two module-scope declarations of
`processAudio` collide, so the inner call can only denote the exported
wrapper itself: the invocation recurses unconditionally (passing the temp
file path where a buffer is expected) and never reaches any analyzer. The
embedding makes the recursion explicit with a fuel parameter; `none` means
the invocation has not returned within the given recursion depth. -/

/-- A value passed to `processAudio`: the caller passes a byte buffer, the
recursive call passes the temp file path. -/
inductive JsVal
  | buffer (b : Buffer)
  | pathVal (p : FsPath)
deriving DecidableEq, Repr

/-- What `fs.writeFile` stores for a given JS value (a path argument is
coerced to its string's bytes). -/
def JsVal.toBuffer : JsVal → Buffer
  | .buffer b => b
  | .pathVal p => (p.dir ++ "/" ++ p.base).toList.map Char.toNat

/-- The JS object returned by `processAudio` in its two `return` statements:
either the analysis fields with `success: true`, or `success: false` with an
error message. -/
structure PAResult where
  success : Bool
  bpm : Option ℚ
  beats : Option (List ℚ)
  duration : Option ℚ
  waveform : Option (List ℚ)
  error : Option String
deriving DecidableEq, Repr

/-- `processAudio` (part_007 lines 62-89) with the inner `processAudio`
call resolved to the function itself, which is the only referent the module
provides. `clock d` is the `Date.now()` reading of the invocation at
recursion depth `d`. Each level writes its argument to a fresh temp file and
then awaits the recursive call; nothing after the recursive call is ever
reached, and no error is ever thrown before it, so the `catch` never fires
and the promise never settles (`none` at every fuel). -/
def processAudioFuel : Nat → (Nat → Nat) → Nat → JsVal → FS →
    Option (PAResult × FS)
  | 0, _, _, _, _ => none
  | fuel + 1, clock, d, v, fs =>
    let audioPath := audioTempPath (clock d)
    let fs1 := fsWrite fs audioPath v.toBuffer
    match processAudioFuel fuel clock (d + 1) (.pathVal audioPath) fs1 with
    | none => none
    | some (audioAnalysis, fs2) =>
      match fsUnlink fs2 audioPath with
      | .error e =>
          some ({ success := false, bpm := none, beats := none,
                  duration := none, waveform := none,
                  error := some e.message }, fs2)
      | .ok fs3 =>
          some ({ success := true, bpm := audioAnalysis.bpm,
                  beats := audioAnalysis.beats,
                  duration := audioAnalysis.duration,
                  waveform := audioAnalysis.waveform, error := none }, fs3)

/-! ### Derived predicates -/

/-- The shape of every value `generateVideo` returns: success with a video
buffer and no error field, or failure with an error message and no buffer. -/
def gvShape (r : GVResult) : Prop :=
  (r.success = true ∧ r.videoBuffer.isSome = true ∧ r.error = none) ∨
  (r.success = false ∧ r.videoBuffer = none ∧ r.error.isSome = true)

/-- The shape of every value `createThumbnail` / `generateEnhancedThumbnail`
returns. -/
def ctShape (r : CTResult) : Prop :=
  (r.success = true ∧ r.thumbnailBuffer.isSome = true ∧ r.error = none) ∨
  (r.success = false ∧ r.thumbnailBuffer = none ∧ r.error.isSome = true)

/-- The temp-file lifecycle `generateVideo` and `createThumbnail` actually
implement, for one invocation of each on every exit path: on the success
path every temp file the invocation allocated is gone when control returns;
when the visualizer throws, the temp audio file remains; when the encoder
rejects, the temp audio file and the visualizer output remain; when the
screenshot rejects, the temp video file remains. -/
def CleanupBehavior (audioBuffer out visContent videoBuffer thumbContent : Buffer)
    (an : AudioAnalysis) (im : List Buffer) (effects : List String)
    (title : String) (t1 t2 u1 u2 : Nat) (name : String) (fs : FS)
    (e : JsError) : Prop :=
  (∃ fs', generateVideoM audioBuffer an im effects title
        ⟨t1, t2, .ok name visContent, .ends out⟩ fs =
        some ({ success := true, videoBuffer := some out, error := none }, fs') ∧
      fsRead fs' (audioTempPath t1) = none ∧
      fsRead fs' (pathJoin tmpdir name) = none ∧
      fsRead fs' (videoTempPath t2) = none) ∧
  (∃ fs', generateVideoM audioBuffer an im effects title
        ⟨t1, t2, .err e, .ends out⟩ fs =
        some ({ success := false, videoBuffer := none,
                error := some e.message }, fs') ∧
      fsRead fs' (audioTempPath t1) = some audioBuffer) ∧
  (∃ fs', generateVideoM audioBuffer an im effects title
        ⟨t1, t2, .ok name visContent, .fails e⟩ fs =
        some ({ success := false, videoBuffer := none,
                error := some e.message }, fs') ∧
      fsRead fs' (audioTempPath t1) = some audioBuffer ∧
      fsRead fs' (pathJoin tmpdir name) = some visContent) ∧
  (∃ fs', createThumbnailM videoBuffer ⟨u1, u2, .ends thumbContent⟩ fs =
        ({ success := true, thumbnailBuffer := some thumbContent,
           error := none }, fs') ∧
      fsRead fs' (videoTempPath u1) = none ∧
      fsRead fs' (thumbTempPath u2) = none) ∧
  (∃ fs', createThumbnailM videoBuffer ⟨u1, u2, .fails e⟩ fs =
        ({ success := false, thumbnailBuffer := none,
           error := some e.message }, fs') ∧
      fsRead fs' (videoTempPath u1) = some videoBuffer)

/-! ### Helper lemmas -/

theorem fsUnlink_of_read (fs : FS) (p : FsPath) (b : Buffer)
    (h : fsRead fs p = some b) : fsUnlink fs p = .ok (fsErase fs p) := by
  unfold fsUnlink
  rw [show fs p = some b from h]

/-- No invocation of the self-recursive `processAudio` ever returns, at any
recursion depth budget. -/
theorem processAudioFuel_eq_none :
    ∀ (fuel : Nat) (clock : Nat → Nat) (d : Nat) (v : JsVal) (fs : FS),
      processAudioFuel fuel clock d v fs = none := by
  intro fuel
  induction fuel with
  | zero => intro clock d v fs; rfl
  | succ n ih =>
    intro clock d v fs
    simp only [processAudioFuel, ih]

/-- Evaluation of `generateVideo` on its success path: visualizer succeeds,
encoder ends, the three temp paths are pairwise distinct. -/
theorem gv_ends_eval (audioBuffer : Buffer) (an : AudioAnalysis)
    (im : List Buffer) (effects : List String) (title : String)
    (t1 t2 : Nat) (name : String) (visContent out : Buffer) (fs : FS)
    (hef : effects.find? (fun x => !(supportedEffects.contains x)) = none)
    (h1 : pathJoin tmpdir name ≠ audioTempPath t1)
    (h2 : pathJoin tmpdir name ≠ videoTempPath t2)
    (h3 : audioTempPath t1 ≠ videoTempPath t2) :
    generateVideoM audioBuffer an im effects title
        ⟨t1, t2, .ok name visContent, .ends out⟩ fs =
      some ({ success := true, videoBuffer := some out, error := none },
        fsErase (fsErase (fsErase
          (fsWrite (fsWrite (fsWrite fs (audioTempPath t1) audioBuffer)
              (pathJoin tmpdir name) visContent) (videoTempPath t2) out)
          (audioTempPath t1)) (pathJoin tmpdir name)) (videoTempPath t2)) := by
  set A := audioTempPath t1 with hA
  set P := pathJoin tmpdir name with hP
  set O := videoTempPath t2 with hO
  set fs3 := fsWrite (fsWrite (fsWrite fs A audioBuffer) P visContent) O out with hfs3
  have r1 : fsRead fs3 A = some audioBuffer := by
    rw [hfs3, fsRead_fsWrite_ne _ _ h3, fsRead_fsWrite_ne _ _ (Ne.symm h1),
      fsRead_fsWrite_self]
  have u1 : fsUnlink fs3 A = .ok (fsErase fs3 A) := fsUnlink_of_read _ _ _ r1
  have r2 : fsRead (fsErase fs3 A) P = some visContent := by
    rw [fsRead_fsErase_ne _ h1, hfs3, fsRead_fsWrite_ne _ _ h2, fsRead_fsWrite_self]
  have u2 : fsUnlink (fsErase fs3 A) P = .ok (fsErase (fsErase fs3 A) P) :=
    fsUnlink_of_read _ _ _ r2
  have r3 : fsRead (fsErase (fsErase fs3 A) P) O = some out := by
    rw [fsRead_fsErase_ne _ (Ne.symm h2), fsRead_fsErase_ne _ (Ne.symm h3), hfs3,
      fsRead_fsWrite_self]
  have u3 : fsUnlink (fsErase (fsErase fs3 A) P) O =
      .ok (fsErase (fsErase (fsErase fs3 A) P) O) := fsUnlink_of_read _ _ _ r3
  have r0 : fsRead fs3 O = some out := by rw [hfs3, fsRead_fsWrite_self]
  simp only [generateVideoM, generateVideoTry, createVisualizer, hef,
    ← hA, ← hP, ← hO, ← hfs3, r0, u1, u2, u3]

/-- Evaluation of `generateVideo` when `createVisualizer` throws: the error
message is returned and the filesystem still holds the temp audio file. -/
theorem gv_visfail_eval (audioBuffer : Buffer) (an : AudioAnalysis)
    (im : List Buffer) (effects : List String) (title : String)
    (t1 t2 : Nat) (e : JsError) (enc : EncOutcome) (fs : FS)
    (hef : effects.find? (fun x => !(supportedEffects.contains x)) = none) :
    generateVideoM audioBuffer an im effects title ⟨t1, t2, .err e, enc⟩ fs =
      some ({ success := false, videoBuffer := none, error := some e.message },
        fsWrite fs (audioTempPath t1) audioBuffer) := by
  simp only [generateVideoM, generateVideoTry, createVisualizer, hef]

/-- Evaluation of `generateVideo` when the ffmpeg promise rejects. -/
theorem gv_encfail_eval (audioBuffer : Buffer) (an : AudioAnalysis)
    (im : List Buffer) (effects : List String) (title : String)
    (t1 t2 : Nat) (name : String) (visContent : Buffer) (e : JsError) (fs : FS)
    (hef : effects.find? (fun x => !(supportedEffects.contains x)) = none) :
    generateVideoM audioBuffer an im effects title
        ⟨t1, t2, .ok name visContent, .fails e⟩ fs =
      some ({ success := false, videoBuffer := none, error := some e.message },
        fsWrite (fsWrite fs (audioTempPath t1) audioBuffer)
          (pathJoin tmpdir name) visContent) := by
  simp only [generateVideoM, generateVideoTry, createVisualizer, hef]

/-- Evaluation of `generateVideo` when the ffmpeg promise never settles. -/
theorem gv_hangs_eval (audioBuffer : Buffer) (an : AudioAnalysis)
    (im : List Buffer) (effects : List String) (title : String)
    (t1 t2 : Nat) (name : String) (visContent : Buffer) (fs : FS)
    (hef : effects.find? (fun x => !(supportedEffects.contains x)) = none) :
    generateVideoM audioBuffer an im effects title
        ⟨t1, t2, .ok name visContent, .hangs⟩ fs = none := by
  simp only [generateVideoM, generateVideoTry, createVisualizer, hef]

/-- Evaluation of `generateVideo` when the effect configuration holds an
unknown effect name: `createVisualizer` validation throws before either
external step runs. -/
theorem gv_badeffect_eval (audioBuffer : Buffer) (an : AudioAnalysis)
    (im : List Buffer) (effects : List String) (title : String)
    (env : GVEnv) (fs : FS) (bad : String)
    (hef : effects.find? (fun x => !(supportedEffects.contains x)) = some bad) :
    generateVideoM audioBuffer an im effects title env fs =
      some ({ success := false, videoBuffer := none,
              error := some ("Unknown effect: " ++ bad) },
        fsWrite fs (audioTempPath env.t1) audioBuffer) := by
  simp only [generateVideoM, generateVideoTry, createVisualizer, hef]

/-- Evaluation of `createThumbnail` on its success path. -/
theorem ct_ends_eval (videoBuffer content : Buffer) (u1 u2 : Nat) (fs : FS)
    (h : videoTempPath u1 ≠ thumbTempPath u2) :
    createThumbnailM videoBuffer ⟨u1, u2, .ends content⟩ fs =
      ({ success := true, thumbnailBuffer := some content, error := none },
        fsErase (fsErase
          (fsWrite (fsWrite fs (videoTempPath u1) videoBuffer)
            (thumbTempPath u2) content)
          (videoTempPath u1)) (thumbTempPath u2)) := by
  set V := videoTempPath u1 with hV
  set T := thumbTempPath u2 with hT
  set fs2 := fsWrite (fsWrite fs V videoBuffer) T content with hfs2
  have hjoin : pathJoin (ctScreenshotConfig T).folder (ctScreenshotConfig T).filename = T := rfl
  have r1 : fsRead fs2 V = some videoBuffer := by
    rw [hfs2, fsRead_fsWrite_ne _ _ h, fsRead_fsWrite_self]
  have u1h : fsUnlink fs2 V = .ok (fsErase fs2 V) := fsUnlink_of_read _ _ _ r1
  have r2 : fsRead (fsErase fs2 V) T = some content := by
    rw [fsRead_fsErase_ne _ (Ne.symm h), hfs2, fsRead_fsWrite_self]
  have u2h : fsUnlink (fsErase fs2 V) T = .ok (fsErase (fsErase fs2 V) T) :=
    fsUnlink_of_read _ _ _ r2
  have r0 : fsRead fs2 T = some content := by rw [hfs2, fsRead_fsWrite_self]
  simp only [createThumbnailM, createThumbnailTry, hjoin, ← hV, ← hT, ← hfs2,
    r0, u1h, u2h]

/-- Evaluation of `createThumbnail` when the screenshot promise rejects: the
error message is returned and the filesystem still holds the temp video
file. -/
theorem ct_fail_eval (videoBuffer : Buffer) (u1 u2 : Nat) (e : JsError)
    (fs : FS) :
    createThumbnailM videoBuffer ⟨u1, u2, .fails e⟩ fs =
      ({ success := false, thumbnailBuffer := none, error := some e.message },
        fsWrite fs (videoTempPath u1) videoBuffer) := by
  simp only [createThumbnailM, createThumbnailTry]


/-! ### Claims -/

/-- C1 (counterexample): on the error path cleanup does not happen. With the
visualizer throwing, `generateVideo` on audio buffer `[9]` at timestamp 5
returns the failure object while the temp audio file `/tmp/audio-5.mp3` it
allocated is still present (content `[9]`), contradicting the claim that
every temporary file allocated up to the exit point is deleted before
control returns on the error path. -/
theorem C1_counterexample :
    (generateVideoM [9] ⟨120, [], 180, []⟩ [] [] "t"
        ⟨5, 6, .err ⟨.EncodingError, "vis fail"⟩, .ends []⟩ fsEmpty).map
      (fun x => (x.1, fsRead x.2 (audioTempPath 5))) =
      some ({ success := false, videoBuffer := none, error := some "vis fail" },
        some [9]) := by
  rw [gv_visfail_eval [9] ⟨120, [], 180, []⟩ [] [] "t" 5 6
    ⟨.EncodingError, "vis fail"⟩ (.ends []) fsEmpty rfl]
  simp [fsRead_fsWrite_self]

/-- C1 (amended): each pipeline stage deletes every temporary file it
allocated before returning on the success path; on an error path no cleanup
occurs, and every temporary file allocated before the failing step is still
present when the error result is returned, whichever internal step failed.
(`processAudio` is covered vacuously: its invocation never returns, see the
C3 theorem.) -/
theorem C1_cleanup_amended :
    ∀ (audioBuffer out visContent videoBuffer thumbContent : Buffer)
      (an : AudioAnalysis) (im : List Buffer) (effects : List String)
      (title : String) (t1 t2 u1 u2 : Nat) (name : String) (fs : FS)
      (e : JsError),
      effects.find? (fun x => !(supportedEffects.contains x)) = none →
      pathJoin tmpdir name ≠ audioTempPath t1 →
      pathJoin tmpdir name ≠ videoTempPath t2 →
      audioTempPath t1 ≠ videoTempPath t2 →
      videoTempPath u1 ≠ thumbTempPath u2 →
      CleanupBehavior audioBuffer out visContent videoBuffer thumbContent
        an im effects title t1 t2 u1 u2 name fs e := by
  intro ab out vc vb tc an im ef ti t1 t2 u1 u2 name fs e hef h1 h2 h3 h4
  refine ⟨⟨_, gv_ends_eval ab an im ef ti t1 t2 name vc out fs hef h1 h2 h3,
      ?_, ?_, ?_⟩,
    ⟨_, gv_visfail_eval ab an im ef ti t1 t2 e _ fs hef, ?_⟩,
    ⟨_, gv_encfail_eval ab an im ef ti t1 t2 name vc e fs hef, ?_, ?_⟩,
    ⟨_, ct_ends_eval vb tc u1 u2 fs h4, ?_, ?_⟩,
    ⟨_, ct_fail_eval vb u1 u2 e fs, ?_⟩⟩
  · rw [fsRead_fsErase_ne _ h3, fsRead_fsErase_ne _ (Ne.symm h1),
      fsRead_fsErase_self]
  · rw [fsRead_fsErase_ne _ h2, fsRead_fsErase_self]
  · rw [fsRead_fsErase_self]
  · rw [fsRead_fsWrite_self]
  · rw [fsRead_fsWrite_ne _ _ (Ne.symm h1), fsRead_fsWrite_self]
  · rw [fsRead_fsWrite_self]
  · rw [fsRead_fsErase_ne _ h4, fsRead_fsErase_self]
  · rw [fsRead_fsErase_self]
  · rw [fsRead_fsWrite_self]

/-- Witness for the amended C1 theorem at concrete inputs. -/
theorem C1_cleanup_amended_witness :
    (List.find? (fun x => !(supportedEffects.contains x)) ([] : List String)
        = none) ∧
    (pathJoin tmpdir "vis.mp4" ≠ audioTempPath 1) ∧
    (pathJoin tmpdir "vis.mp4" ≠ videoTempPath 2) ∧
    (audioTempPath 1 ≠ videoTempPath 2) ∧
    (videoTempPath 3 ≠ thumbTempPath 4) ∧
    CleanupBehavior [1] [2] [3] [4] [5] ⟨120, [], 180, []⟩ [] [] "t"
      1 2 3 4 "vis.mp4" fsEmpty ⟨.EncodingError, "x"⟩ :=
  ⟨rfl, by decide, by decide, by decide, by decide,
    C1_cleanup_amended [1] [2] [3] [4] [5] ⟨120, [], 180, []⟩ [] [] "t"
      1 2 3 4 "vis.mp4" fsEmpty ⟨.EncodingError, "x"⟩
      rfl (by decide) (by decide) (by decide) (by decide)⟩

/-- C2: the encode step of `generateVideo` passes the `-shortest` output
option to the external muxer, whose contract (modelled from the spec) makes
the muxed output duration the minimum of the video and audio input
durations, never padded; in particular a 10.0s video stream muxed with a
7.5s audio stream yields a 7.5s output. -/
theorem C2_encode_shortest :
    (∀ videoDur audioDur : ℚ,
        ffmpegMuxDuration gvOutputOptions videoDur audioDur =
          min videoDur audioDur) ∧
    ffmpegMuxDuration gvOutputOptions 10 (15 / 2) = 15 / 2 := by
  have h : gvOutputOptions.contains "-shortest" = true := by decide
  constructor
  · intro v a
    unfold ffmpegMuxDuration
    rw [h]
    simp
  · unfold ffmpegMuxDuration
    rw [h]
    simp only [if_true]
    norm_num [min_def]

/-- C3 (code bug): `processAudio` never returns an `AudioAnalysis` at all.
The module imports `processAudio` from `./audioProcessor` and then exports a
function of the same name whose body awaits `processAudio(audioPath)`; the
two module-scope bindings collide, so the inner call denotes the wrapper
itself and the invocation recurses unconditionally without ever reaching an
analyzer. On the concrete valid MP3 input `[73, 68, 51]` (an ID3 header),
for every recursion budget, every clock and every starting filesystem, the
invocation does not return. -/
theorem C3_processAudio_never_returns :
    ∀ (fuel : Nat) (clock : Nat → Nat) (d : Nat) (fs : FS),
      processAudioFuel fuel clock d (.buffer [73, 68, 51]) fs = none :=
  fun fuel clock d fs => processAudioFuel_eq_none fuel clock d _ fs

/-- C4: an effects configuration containing an effect name outside the
supported set makes `generateVideo` fail with the `ConfigurationError` of
the visualizer validation (modelled from the spec, since `./visualizer` is
not in the excerpt), whatever the external oracles would have done; the
unknown name is not ignored, and no output video file is created (the temp
output path is absent from the final filesystem). -/
theorem C4_unknown_effect_rejected :
    ∀ (audioBuffer : Buffer) (an : AudioAnalysis) (im : List Buffer)
      (effects : List String) (title : String) (env : GVEnv) (fs : FS)
      (bad : String),
      effects.find? (fun x => !(supportedEffects.contains x)) = some bad →
      fsRead fs (videoTempPath env.t2) = none →
      audioTempPath env.t1 ≠ videoTempPath env.t2 →
      ∃ fs', generateVideoM audioBuffer an im effects title env fs =
          some ({ success := false, videoBuffer := none,
                  error := some ("Unknown effect: " ++ bad) }, fs') ∧
        fsRead fs' (videoTempPath env.t2) = none := by
  intro ab an im ef ti env fs bad hef hout hne
  refine ⟨_, gv_badeffect_eval ab an im ef ti env fs bad hef, ?_⟩
  rw [fsRead_fsWrite_ne _ _ (Ne.symm hne)]
  exact hout

/-- Witness for C4 with the unknown effect name "nonexistent_effect". -/
theorem C4_unknown_effect_rejected_witness :
    (List.find? (fun x => !(supportedEffects.contains x))
        ["nonexistent_effect"] = some "nonexistent_effect") ∧
    (fsRead fsEmpty (videoTempPath 2) = none) ∧
    (audioTempPath 1 ≠ videoTempPath 2) ∧
    (∃ fs', generateVideoM [7] ⟨120, [], 180, []⟩ [] ["nonexistent_effect"]
        "t" ⟨1, 2, .ok "vis.mp4" [], .ends []⟩ fsEmpty =
        some ({ success := false, videoBuffer := none,
                error := some ("Unknown effect: " ++ "nonexistent_effect") },
          fs') ∧
      fsRead fs' (videoTempPath 2) = none) :=
  ⟨by decide, rfl, by decide,
    C4_unknown_effect_rejected [7] ⟨120, [], 180, []⟩ [] ["nonexistent_effect"]
      "t" ⟨1, 2, .ok "vis.mp4" [], .ends []⟩ fsEmpty "nonexistent_effect"
      (by decide) rfl (by decide)⟩

/-- C5 (counterexample): nothing bounds the encoder invocation. When the
ffmpeg promise never settles, `generateVideo` on concrete inputs never
returns at all — it hangs instead of failing with an `EncodingError`,
contradicting the claimed configurable timeout. -/
theorem C5_counterexample :
    generateVideoM [1] ⟨120, [], 180, []⟩ [] [] "t"
      ⟨1, 2, .ok "vis.mp4" [2], .hangs⟩ fsEmpty = none :=
  gv_hangs_eval [1] ⟨120, [], 180, []⟩ [] [] "t" 1 2 "vis.mp4" [2] fsEmpty rfl

/-- C5 (amended): the source configures no timeout for the encoder process.
A rejected ffmpeg promise (non-zero exit) does yield a failure result
carrying the process error message; but an encoder that never exits makes
`generateVideo` hang indefinitely rather than fail with an
`EncodingError`. -/
theorem C5_encoder_amended :
    ∀ (audioBuffer : Buffer) (an : AudioAnalysis) (im : List Buffer)
      (effects : List String) (title : String) (t1 t2 : Nat) (name : String)
      (visContent : Buffer) (fs : FS) (e : JsError),
      effects.find? (fun x => !(supportedEffects.contains x)) = none →
      ((∃ fs', generateVideoM audioBuffer an im effects title
            ⟨t1, t2, .ok name visContent, .fails e⟩ fs =
          some ({ success := false, videoBuffer := none,
                  error := some e.message }, fs')) ∧
        generateVideoM audioBuffer an im effects title
          ⟨t1, t2, .ok name visContent, .hangs⟩ fs = none) := by
  intro ab an im ef ti t1 t2 name vc fs e hef
  exact ⟨⟨_, gv_encfail_eval ab an im ef ti t1 t2 name vc e fs hef⟩,
    gv_hangs_eval ab an im ef ti t1 t2 name vc fs hef⟩

/-- Witness for the amended C5 theorem at concrete inputs. -/
theorem C5_encoder_amended_witness :
    (List.find? (fun x => !(supportedEffects.contains x)) ([] : List String)
        = none) ∧
    ((∃ fs', generateVideoM [1] ⟨120, [], 180, []⟩ [] [] "t"
          ⟨1, 2, .ok "vis.mp4" [2], .fails ⟨.EncodingError, "exit 1"⟩⟩ fsEmpty =
        some ({ success := false, videoBuffer := none,
                error := some "exit 1" }, fs')) ∧
      generateVideoM [1] ⟨120, [], 180, []⟩ [] [] "t"
        ⟨1, 2, .ok "vis.mp4" [2], .hangs⟩ fsEmpty = none) :=
  ⟨rfl, C5_encoder_amended [1] ⟨120, [], 180, []⟩ [] [] "t" 1 2 "vis.mp4"
    [2] fsEmpty ⟨.EncodingError, "exit 1"⟩ rfl⟩

/-- C6 (counterexample): temp-file namespaces of concurrent jobs are not
disjoint. Temp names are derived solely from `Date.now()`, so two jobs whose
audio-file allocation happens in the same millisecond (here 1000) compute
the identical path `/tmp/audio-1000.mp3`. Concretely: job A has written its
temp audio file (content `[0]`); job B, running `generateVideo` in the same
millisecond, overwrites that file and its success-path cleanup then deletes
it — B reads, overwrites and deletes a temporary file created by A. -/
theorem C6_counterexample :
    fsRead (fsWrite fsEmpty (audioTempPath 1000) [0]) (audioTempPath 1000) =
      some [0] ∧
    (generateVideoM [1] ⟨120, [], 180, []⟩ [] [] "t"
        ⟨1000, 1001, .ok "vis.mp4" [2], .ends [3]⟩
        (fsWrite fsEmpty (audioTempPath 1000) [0])).map
      (fun x => (x.1, fsRead x.2 (audioTempPath 1000))) =
      some ({ success := true, videoBuffer := some [3], error := none },
        none) := by
  refine ⟨rfl, ?_⟩
  rw [gv_ends_eval [1] ⟨120, [], 180, []⟩ [] [] "t" 1000 1001 "vis.mp4" [2]
    [3] (fsWrite fsEmpty (audioTempPath 1000) [0]) rfl (by decide) (by decide)
    (by decide)]
  simp only [Option.map_some']
  refine congrArg some (congrArg _ ?_)
  rw [fsRead_fsErase_ne _ (by decide : audioTempPath 1000 ≠ videoTempPath 1001),
    fsRead_fsErase_ne _ (by decide : audioTempPath 1000 ≠ pathJoin tmpdir "vis.mp4"),
    fsRead_fsErase_self]

/-- C6 (amended): temp file names are derived solely from the `Date.now()`
millisecond, with no per-job component. A job whose audio allocation falls
in a different millisecond uses a different path, but two jobs allocating in
the same millisecond `t` share the path: the later job's write replaces the
earlier job's temp audio file, and the later job's success-path cleanup
deletes it. -/
theorem C6_namespace_amended :
    ∀ (t t2 : Nat) (bufA bufB out visContent : Buffer) (an : AudioAnalysis)
      (title : String) (name : String) (fs : FS),
      fsRead fs (audioTempPath t) = some bufA →
      pathJoin tmpdir name ≠ audioTempPath t →
      pathJoin tmpdir name ≠ videoTempPath t2 →
      audioTempPath t ≠ videoTempPath t2 →
      (fsRead (fsWrite fs (audioTempPath t) bufB) (audioTempPath t) =
          some bufB ∧
        ∃ fs', generateVideoM bufB an [] [] title
            ⟨t, t2, .ok name visContent, .ends out⟩ fs =
            some ({ success := true, videoBuffer := some out, error := none },
              fs') ∧
          fsRead fs' (audioTempPath t) = none) := by
  intro t t2 bufA bufB out vc an ti name fs hA h1 h2 h3
  refine ⟨fsRead_fsWrite_self _ _ _,
    _, gv_ends_eval bufB an [] [] ti t t2 name vc out fs rfl h1 h2 h3, ?_⟩
  rw [fsRead_fsErase_ne _ h3, fsRead_fsErase_ne _ (Ne.symm h1),
    fsRead_fsErase_self]

/-- Witness for the amended C6 theorem at concrete inputs. -/
theorem C6_namespace_amended_witness :
    (fsRead (fsWrite fsEmpty (audioTempPath 1000) [0]) (audioTempPath 1000) =
        some [0]) ∧
    (pathJoin tmpdir "vis.mp4" ≠ audioTempPath 1000) ∧
    (pathJoin tmpdir "vis.mp4" ≠ videoTempPath 1001) ∧
    (audioTempPath 1000 ≠ videoTempPath 1001) ∧
    (fsRead (fsWrite (fsWrite fsEmpty (audioTempPath 1000) [0])
          (audioTempPath 1000) [1]) (audioTempPath 1000) = some [1] ∧
      ∃ fs', generateVideoM [1] ⟨120, [], 180, []⟩ [] [] "t"
          ⟨1000, 1001, .ok "vis.mp4" [2], .ends [3]⟩
          (fsWrite fsEmpty (audioTempPath 1000) [0]) =
          some ({ success := true, videoBuffer := some [3], error := none },
            fs') ∧
        fsRead fs' (audioTempPath 1000) = none) :=
  ⟨rfl, by decide, by decide, by decide,
    C6_namespace_amended 1000 1001 [0] [1] [3] [2] ⟨120, [], 180, []⟩ "t"
      "vis.mp4" (fsWrite fsEmpty (audioTempPath 1000) [0]) rfl (by decide)
      (by decide) (by decide)⟩

/-- C7: `createThumbnail` requests exactly one frame, at the timestamp
entry "50%", i.e. (under the screenshot contract modelled from the spec)
the frame at exactly D/2 for a video of duration D — in particular within
one frame interval of D/2 — decoded at the size "1280x720", which parses to
the target resolution 1280 by 720. -/
theorem C7_thumbnail_midpoint :
    ∀ (t : Nat) (D : ℚ),
      (ctScreenshotConfig (thumbTempPath t)).timestamps.length = 1 ∧
      screenshotTimestampOf (ctScreenshotConfig (thumbTempPath t)) D =
        some (D / 2) ∧
      parseSize (ctScreenshotConfig (thumbTempPath t)).size =
        some (1280, 720) := by
  intro t D
  have hp : parsePercent "50%" = some 50 := by decide
  refine ⟨rfl, ?_, ?_⟩
  · simp only [screenshotTimestampOf, ctScreenshotConfig, hp, Option.map_some]
    refine congrArg some ?_
    push_cast
    ring
  · show parseSize "1280x720" = some (1280, 720)
    decide

/-- C8 (counterexample): the specific error kind is not surfaced to the
caller. A `ConfigurationError` thrown by the visualizer and an
`EncodingError` from the encoder, both with message "boom", are distinct
error kinds, yet `generateVideo` returns the byte-identical result object
for the two runs: the caller receives only the message string and cannot
recover which kind of error occurred. -/
theorem C8_counterexample :
    ErrKind.ConfigurationError ≠ ErrKind.EncodingError ∧
    (generateVideoM [1] ⟨120, [], 180, []⟩ [] [] "t"
        ⟨1, 2, .err ⟨.ConfigurationError, "boom"⟩, .ends []⟩ fsEmpty).map
      Prod.fst =
      some { success := false, videoBuffer := none, error := some "boom" } ∧
    (generateVideoM [1] ⟨120, [], 180, []⟩ [] [] "t"
        ⟨1, 2, .ok "vis.mp4" [], .fails ⟨.EncodingError, "boom"⟩⟩ fsEmpty).map
      Prod.fst =
      some { success := false, videoBuffer := none, error := some "boom" } := by
  refine ⟨by decide, ?_, ?_⟩
  · rw [gv_visfail_eval [1] ⟨120, [], 180, []⟩ [] [] "t" 1 2
      ⟨.ConfigurationError, "boom"⟩ (.ends []) fsEmpty rfl]
    rfl
  · rw [gv_encfail_eval [1] ⟨120, [], 180, []⟩ [] [] "t" 1 2 "vis.mp4" []
      ⟨.EncodingError, "boom"⟩ fsEmpty rfl]
    rfl

/-- C8 (amended): on any stage failure the caller receives a failure object
that carries the failing stage's diagnostic message (`error.message`) — but
not the error kind itself, which the catch blocks discard — and never a
partial payload: a failed `generateVideo` result has no `videoBuffer` and a
failed `createThumbnail` result has no `thumbnailBuffer`. -/
theorem C8_error_surface_amended :
    ∀ (audioBuffer : Buffer) (an : AudioAnalysis) (im : List Buffer)
      (effects : List String) (title : String) (t1 t2 u1 u2 : Nat)
      (name : String) (visContent videoBuffer : Buffer) (fs : FS)
      (e : JsError),
      effects.find? (fun x => !(supportedEffects.contains x)) = none →
      (((generateVideoM audioBuffer an im effects title
            ⟨t1, t2, .err e, .ends visContent⟩ fs).map Prod.fst =
          some { success := false, videoBuffer := none,
                 error := some e.message }) ∧
       ((generateVideoM audioBuffer an im effects title
            ⟨t1, t2, .ok name visContent, .fails e⟩ fs).map Prod.fst =
          some { success := false, videoBuffer := none,
                 error := some e.message }) ∧
       ((createThumbnailM videoBuffer ⟨u1, u2, .fails e⟩ fs).1 =
          { success := false, thumbnailBuffer := none,
            error := some e.message })) := by
  intro ab an im ef ti t1 t2 u1 u2 name vc vb fs e hef
  refine ⟨?_, ?_, ?_⟩
  · rw [gv_visfail_eval ab an im ef ti t1 t2 e (.ends vc) fs hef]
    rfl
  · rw [gv_encfail_eval ab an im ef ti t1 t2 name vc e fs hef]
    rfl
  · rw [ct_fail_eval vb u1 u2 e fs]

/-- Witness for the amended C8 theorem at concrete inputs. -/
theorem C8_error_surface_amended_witness :
    (List.find? (fun x => !(supportedEffects.contains x)) ([] : List String)
        = none) ∧
    (((generateVideoM [1] ⟨120, [], 180, []⟩ [] [] "t"
          ⟨1, 2, .err ⟨.ExtractionError, "m"⟩, .ends [2]⟩ fsEmpty).map
        Prod.fst =
        some { success := false, videoBuffer := none, error := some "m" }) ∧
     ((generateVideoM [1] ⟨120, [], 180, []⟩ [] [] "t"
          ⟨1, 2, .ok "vis.mp4" [2], .fails ⟨.ExtractionError, "m"⟩⟩
          fsEmpty).map Prod.fst =
        some { success := false, videoBuffer := none, error := some "m" }) ∧
     ((createThumbnailM [4] ⟨3, 4, .fails ⟨.ExtractionError, "m"⟩⟩
          fsEmpty).1 =
        { success := false, thumbnailBuffer := none, error := some "m" })) :=
  ⟨rfl, C8_error_surface_amended [1] ⟨120, [], 180, []⟩ [] [] "t" 1 2 3 4
    "vis.mp4" [2] [4] fsEmpty ⟨.ExtractionError, "m"⟩ rfl⟩

/-- C9: `generateEnhancedThumbnail` is a pure passthrough for every
thumbnail buffer, title and effects argument: it returns success with a
thumbnail buffer byte-for-byte equal to its input (and so in particular
never corrupts the base image, whether or not overlay styling is
configured). -/
theorem C9_enhanced_passthrough :
    ∀ (thumbnailBuffer : Buffer) (title : String) (effects : List String),
      generateEnhancedThumbnail thumbnailBuffer title effects =
        { success := true, thumbnailBuffer := some thumbnailBuffer,
          error := none } :=
  fun _ _ _ => rfl

/-- C10 (counterexample): `processAudio` does not return a value for every
input. On the valid buffer `[1, 2, 3]` starting from the empty filesystem
there is no recursion budget at which the invocation returns any object at
all — the self-recursive call never settles (and the module-scope name
collision makes the module itself unloadable), so "each returns an object
with success and payload or error" fails for `processAudio`. -/
theorem C10_counterexample :
    ¬ ∃ (fuel : Nat) (out : PAResult × FS),
        processAudioFuel fuel (fun _ => 0) 0 (.buffer [1, 2, 3]) fsEmpty =
          some out := by
  rintro ⟨fuel, out, h⟩
  rw [processAudioFuel_eq_none] at h
  exact Option.noConfusion h

/-- C10 (amended): none of the four functions ever throws: the try/catch
structure converts every raised error into a returned object. Every value
`generateVideo` returns is success-with-videoBuffer or
failure-with-error-message (it returns no value only when the un-timed
encoder promise never settles); `createThumbnail` and
`generateEnhancedThumbnail` always return a value of the corresponding
shape; `processAudio` never raises either, but — due to its self-recursive
inner call — never returns a value at all. -/
theorem C10_shape_amended :
    (∀ (audioBuffer : Buffer) (an : AudioAnalysis) (im : List Buffer)
        (effects : List String) (title : String) (env : GVEnv) (fs : FS),
        match generateVideoM audioBuffer an im effects title env fs with
        | none => True
        | some (r, _) => gvShape r) ∧
    (∀ (videoBuffer : Buffer) (env : CTEnv) (fs : FS),
        ctShape (createThumbnailM videoBuffer env fs).1) ∧
    (∀ (thumbnailBuffer : Buffer) (title : String) (effects : List String),
        ctShape (generateEnhancedThumbnail thumbnailBuffer title effects)) ∧
    (∀ (fuel : Nat) (clock : Nat → Nat) (d : Nat) (v : JsVal) (fs : FS),
        processAudioFuel fuel clock d v fs = none) := by
  refine ⟨?_, ?_, ?_, processAudioFuel_eq_none⟩
  · intro ab an im ef ti env fs
    unfold generateVideoM
    rcases generateVideoTry ab an im ef ti env fs with _ | ⟨e | b, fs'⟩
    · trivial
    · simp [gvShape]
    · simp [gvShape]
  · intro vb env fs
    unfold createThumbnailM
    rcases createThumbnailTry vb env fs with ⟨e | b, fs'⟩
    · simp [ctShape]
    · simp [ctShape]
  · intro tb ti ef
    simp [generateEnhancedThumbnail, ctShape]
